import Mathlib

/-!
# Verification of the OpenSQT market maker against its specification

Shallow embedding of the Go sources of `opensqt_market_maker`:

* `safety/safety.go` — the pre-trade account safety check (`CheckAccountSafety`);
* `config/config.go` — configuration model and `Config.Validate`;
* `logger/logger.go` — `ParseLogLevel`;
* `safety` take-profit monitor — `TakeProfitMonitor` (`checkProfitAndTrigger`,
  `getEffectiveBalance`, the `Start` tick loop);
* `main.go` — the price-event loop reacting to the risk monitor.

Go `float64` values are modelled as exact rationals (`ℚ`); Go `int` as `ℤ`.
Fallible venue calls (`GetAccount`, `GetPositions`) are modelled as `Option`
arguments: `none` is a failed fetch.  Log output, display-only parameters
(`priceDecimals`) and timeouts are not modelled — they do not influence any
return value considered here.
-/

namespace OpenSQT

/-- Account snapshot returned by `IExchange.GetAccount` (exchange/types). -/
structure Account where
  availableBalance : ℚ
  totalWalletBalance : ℚ
  totalMarginBalance : ℚ
  accountLeverage : ℤ
  deriving Repr, DecidableEq

/-- Per-symbol position returned by `IExchange.GetPositions`. -/
structure Position where
  symbol : String
  size : ℚ
  leverage : ℤ
  deriving Repr, DecidableEq

/-- Error outcomes of `CheckAccountSafety` (`safety/safety.go`), one tag per
`return fmt.Errorf(...)` site. -/
inductive SafetyError where
  | accountFetchFailed
  | insufficientBalance
  | leverageTooHigh
  | insufficientPositions
  | nonPositiveNetProfit
  deriving Repr, DecidableEq

/-- The first position entry matching `symbol`, as found by the `for` loop in
`CheckAccountSafety` (which `break`s at the first match); `none` when the
positions fetch failed or no entry matches. -/
def foundPosition (positionsRes : Option (List Position)) (symbol : String) :
    Option Position :=
  match positionsRes with
  | none => none
  | some ps => ps.find? (fun p => p.symbol == symbol)

/-- `positionAmt` in `CheckAccountSafety`: the size of the first matching
position, `0` when the fetch failed or no entry matches. -/
def positionAmt (positionsRes : Option (List Position)) (symbol : String) : ℚ :=
  match foundPosition positionsRes symbol with
  | some p => p.size
  | none => 0

/-- The `leverage` local after the positions loop in `CheckAccountSafety`:
initialised to `1`, overwritten by the matching position's leverage when that
is positive. -/
def basePositionLeverage (positionsRes : Option (List Position))
    (symbol : String) : ℤ :=
  match foundPosition positionsRes symbol with
  | some p => if p.leverage > 0 then p.leverage else 1
  | none => 1

/-- The `leverage` value used by the checks: when the positions loop left it at
`1` and the account reports a positive account-level leverage, the account
leverage wins (`safety.go` line 53).  `tryGetBinanceLeverage` always returns
`0` in the source, so the Binance branch never changes the value and is not
modelled. -/
def determinedLeverage (account : Account) (positionsRes : Option (List Position))
    (symbol : String) : ℤ :=
  let l0 := basePositionLeverage positionsRes symbol
  if l0 = 1 ∧ account.accountLeverage > 0 then account.accountLeverage else l0

/-- `profitPerTrade = sellAmount - buyAmount` in `CheckAccountSafety`:
`sellPrice * (orderAmount / buyPrice) - orderAmount` with
`sellPrice = currentPrice + priceInterval`. -/
def profitPerTrade (currentPrice orderAmount priceInterval : ℚ) : ℚ :=
  (currentPrice + priceInterval) * (orderAmount / currentPrice) - orderAmount

/-- `netProfit = profitPerTrade - (buyFee + sellFee)` in `CheckAccountSafety`,
with `buyFee = orderAmount * feeRate` and
`sellFee = sellPrice * (orderAmount / currentPrice) * feeRate`. -/
def netProfit (currentPrice orderAmount priceInterval feeRate : ℚ) : ℚ :=
  let sellAmount := (currentPrice + priceInterval) * (orderAmount / currentPrice)
  profitPerTrade currentPrice orderAmount priceInterval -
    (orderAmount * feeRate + sellAmount * feeRate)

/-- `CheckAccountSafety` (`safety/safety.go`).  The two venue fetches are
passed as `Option` results; `GetPositions` failure leaves position size `0`
and leverage `1` exactly as in the source (the loop body is skipped).  The
`priceDecimals` parameter only affects log formatting and is omitted. -/
def CheckAccountSafety (accountRes : Option Account)
    (positionsRes : Option (List Position)) (symbol : String)
    (currentPrice orderAmount priceInterval feeRate : ℚ)
    (requiredPositions maxLeverage : ℤ) : Except SafetyError Unit :=
  match accountRes with
  | none => .error .accountFetchFailed
  | some account =>
    if positionAmt positionsRes symbol ≠ 0 then
      .ok ()
    else if account.availableBalance ≤ 0 then
      .error .insufficientBalance
    else if determinedLeverage account positionsRes symbol > maxLeverage then
      .error .leverageTooHigh
    else if account.availableBalance *
        (determinedLeverage account positionsRes symbol : ℚ) / orderAmount <
        (requiredPositions : ℚ) then
      .error .insufficientPositions
    else if netProfit currentPrice orderAmount priceInterval feeRate ≤ 0 then
      .error .nonPositiveNetProfit
    else
      .ok ()

/-- The leverage-determination rule exactly as claim C1 words it: "position
leverage if positive, else account leverage if positive, else 1".  Stated from
the claim for comparison with the source's `determinedLeverage`. -/
def claimC1Leverage (account : Account) (positionsRes : Option (List Position))
    (symbol : String) : ℤ :=
  let posLev := match foundPosition positionsRes symbol with
    | some p => p.leverage
    | none => 0
  if posLev > 0 then posLev
  else if account.accountLeverage > 0 then account.accountLeverage
  else 1

/-- The success conditions exactly as claim C1 states them, with the claim's
own leverage rule. -/
def claimC1Conditions (account : Account) (positionsRes : Option (List Position))
    (symbol : String) (currentPrice orderAmount priceInterval feeRate : ℚ)
    (requiredPositions maxLeverage : ℤ) : Prop :=
  claimC1Leverage account positionsRes symbol ≤ maxLeverage ∧
  0 < account.availableBalance ∧
  (requiredPositions : ℚ) ≤
    account.availableBalance * (claimC1Leverage account positionsRes symbol : ℚ) /
      orderAmount ∧
  0 < netProfit currentPrice orderAmount priceInterval feeRate

/-- The reference per-cycle net profit formula from the spec (§4.7 item 5):
`(Δ · N/P) − (buy_fee + sell_fee)` with `buy_fee = N·feeRate` and
`sell_fee = (P+Δ)·(N/P)·feeRate`.  Stated from the spec's words for
comparison with the source's `netProfit`. -/
def specNetProfitPerCycle (currentPrice orderAmount priceInterval feeRate : ℚ) : ℚ :=
  priceInterval * (orderAmount / currentPrice) -
    (orderAmount * feeRate +
      (currentPrice + priceInterval) * (orderAmount / currentPrice) * feeRate)

/-- Account used as a passing witness input for the safety-check theorems:
balance 1000, no account-level leverage reported. -/
def witnessAccount : Account := ⟨1000, 0, 0, 0⟩

/-- Counterexample account for claim C1: account-level leverage 20. -/
def c1Account : Account := ⟨1000, 0, 0, 20⟩

/-- Counterexample positions for claim C1: a zero-size position whose
leverage is 1 (positive). -/
def c1Positions : List Position := [⟨"BTCUSDT", 0, 1⟩]

/-- C1 (counterexample).  Claim C1 determines the leverage as "position
leverage if positive, else account leverage if positive, else 1".  With a
zero-size position reporting leverage 1 and an account-level leverage of 20,
the claim's leverage is 1 ≤ maxLeverage = 10 and every other claimed success
condition holds, so the claim predicts `nil`; the source instead overwrites a
position leverage equal to 1 with the positive account leverage
(`safety.go` line 53), obtains 20 > 10 and returns the leverage error. -/
theorem C1_counterexample :
    claimC1Conditions c1Account (some c1Positions) "BTCUSDT" 100 30 1 0 10 10 ∧
    CheckAccountSafety (some c1Account) (some c1Positions) "BTCUSDT"
      100 30 1 0 10 10 = .error .leverageTooHigh := by
  constructor
  · refine ⟨?_, ?_, ?_, ?_⟩ <;>
      norm_num [claimC1Leverage, c1Account, c1Positions, foundPosition,
        netProfit, profitPerTrade, List.find?]
  · norm_num [CheckAccountSafety, positionAmt, determinedLeverage,
      basePositionLeverage, foundPosition, c1Account, c1Positions, List.find?]

/-- C1 (amended).  For a successful account fetch and a venue-reported zero
position for the symbol, `CheckAccountSafety` returns `nil` iff: the
determined leverage (position leverage if greater than 1, else account
leverage if positive, else 1 — the source's `determinedLeverage`) is ≤
`maxLeverage`, the available balance is > 0, `balance · leverage / orderAmount
≥ requiredPositions`, and the computed per-cycle net profit is > 0. -/
theorem C1_safety_success_iff (account : Account)
    (positionsRes : Option (List Position)) (symbol : String)
    (currentPrice orderAmount priceInterval feeRate : ℚ)
    (requiredPositions maxLeverage : ℤ)
    (hpos : positionAmt positionsRes symbol = 0) :
    CheckAccountSafety (some account) positionsRes symbol currentPrice
        orderAmount priceInterval feeRate requiredPositions maxLeverage =
        .ok () ↔
      (determinedLeverage account positionsRes symbol ≤ maxLeverage ∧
       0 < account.availableBalance ∧
       (requiredPositions : ℚ) ≤ account.availableBalance *
         (determinedLeverage account positionsRes symbol : ℚ) / orderAmount ∧
       0 < netProfit currentPrice orderAmount priceInterval feeRate) := by
  simp only [CheckAccountSafety]
  rw [if_neg (by simp [hpos])]
  split_ifs with h1 h2 h3 h4
  · exact iff_of_false (by simp) (fun h => absurd h.2.1 (not_lt.mpr h1))
  · exact iff_of_false (by simp) (fun h => absurd h.1 (not_le.mpr h2))
  · exact iff_of_false (by simp) (fun h => absurd h.2.2.1 (not_le.mpr h3))
  · exact iff_of_false (by simp) (fun h => absurd h.2.2.2 (not_lt.mpr h4))
  · exact iff_of_true rfl ⟨not_lt.mp h2, not_le.mp h1, not_lt.mp h3, not_le.mp h4⟩

/-- C1 (witness): the amended theorem applied at a concrete passing input. -/
theorem C1_witness :
    CheckAccountSafety (some witnessAccount) (some []) "BTCUSDT"
      100 30 1 0 10 10 = .ok () :=
  (C1_safety_success_iff witnessAccount (some []) "BTCUSDT" 100 30 1 0 10 10
    rfl).mpr (by
      refine ⟨by decide, by decide, ?_, ?_⟩ <;>
        norm_num [witnessAccount, determinedLeverage, basePositionLeverage,
          foundPosition, netProfit, profitPerTrade])

/-- C2.  With zero position and all earlier checks passing, the check fails
iff the spec's reference per-cycle net profit `(Δ·N/P) − (buy_fee+sell_fee)`
is ≤ 0, and the code's `profitPerTrade = sellAmount − buyAmount` equals the
reference term `Δ·N/P` (exactly, in the rational model of the float
arithmetic). -/
theorem C2_net_profit_gate (account : Account)
    (positionsRes : Option (List Position)) (symbol : String)
    (currentPrice orderAmount priceInterval feeRate : ℚ)
    (requiredPositions maxLeverage : ℤ)
    (hP : 0 < currentPrice)
    (hpos : positionAmt positionsRes symbol = 0)
    (hbal : 0 < account.availableBalance)
    (hlev : determinedLeverage account positionsRes symbol ≤ maxLeverage)
    (hcap : (requiredPositions : ℚ) ≤ account.availableBalance *
      (determinedLeverage account positionsRes symbol : ℚ) / orderAmount) :
    ((∃ e, CheckAccountSafety (some account) positionsRes symbol currentPrice
        orderAmount priceInterval feeRate requiredPositions maxLeverage =
        .error e) ↔
      specNetProfitPerCycle currentPrice orderAmount priceInterval feeRate ≤ 0) ∧
    profitPerTrade currentPrice orderAmount priceInterval =
      priceInterval * orderAmount / currentPrice := by
  have hne : currentPrice ≠ 0 := ne_of_gt hP
  have hspec : netProfit currentPrice orderAmount priceInterval feeRate =
      specNetProfitPerCycle currentPrice orderAmount priceInterval feeRate := by
    simp only [netProfit, specNetProfitPerCycle, profitPerTrade]
    field_simp
    ring
  constructor
  · simp only [CheckAccountSafety]
    rw [if_neg (by simp [hpos]), if_neg (not_le.mpr hbal),
      if_neg (not_lt.mpr hlev), if_neg (not_lt.mpr hcap), ← hspec]
    split_ifs with h
    · simp [h]
    · simp [h]
  · simp only [profitPerTrade]
    field_simp
    ring

/-- C2 (witness): the theorem applied at a concrete input (price 100,
notional 30, step 1, zero fee). -/
theorem C2_witness :
    ((∃ e, CheckAccountSafety (some witnessAccount) (some []) "BTCUSDT"
        100 30 1 0 10 10 = .error e) ↔
      specNetProfitPerCycle 100 30 1 0 ≤ 0) ∧
    profitPerTrade 100 30 1 = 1 * 30 / 100 :=
  C2_net_profit_gate witnessAccount (some []) "BTCUSDT" 100 30 1 0 10 10
    (by norm_num) rfl (by decide) (by decide)
    (by norm_num [witnessAccount, determinedLeverage, basePositionLeverage,
      foundPosition])

/-- C3.  Whenever the first matching position has nonzero size, the check
returns `nil` immediately: the result is `ok` for every balance, leverage,
price, fee, and requirement — none of the later conditions is consulted. -/
theorem C3_nonzero_position_skips (account : Account)
    (positionsRes : Option (List Position)) (symbol : String)
    (currentPrice orderAmount priceInterval feeRate : ℚ)
    (requiredPositions maxLeverage : ℤ)
    (hpos : positionAmt positionsRes symbol ≠ 0) :
    CheckAccountSafety (some account) positionsRes symbol currentPrice
      orderAmount priceInterval feeRate requiredPositions maxLeverage =
      .ok () := by
  simp only [CheckAccountSafety]
  rw [if_pos hpos]

/-- Account violating every later safety condition, for the C3 witness. -/
def c3Account : Account := ⟨-5, 0, 0, 100⟩

/-- C3 (witness): a held position of size 2 with leverage 50, a negative
balance and `maxLeverage` 1 — the check still returns `ok`. -/
theorem C3_witness :
    CheckAccountSafety (some c3Account) (some [⟨"BTCUSDT", 2, 50⟩]) "BTCUSDT"
      100 30 0 1 1000 1 = .ok () :=
  C3_nonzero_position_skips c3Account (some [⟨"BTCUSDT", 2, 50⟩]) "BTCUSDT"
    100 30 0 1 1000 1 (by decide)

/-! ## Configuration model (`config/config.go`) -/

/-- `app` section. -/
structure AppConfig where
  currentExchange : String
  deriving Repr, DecidableEq

/-- `trading.take_profit` section. -/
structure TakeProfitConfig where
  enabled : Bool
  targetProfit : ℚ
  checkInterval : ℤ
  balanceMode : String
  deriving Repr, DecidableEq

/-- `trading` section. -/
structure TradingConfig where
  symbol : String
  priceInterval : ℚ
  orderQuantity : ℚ
  minOrderValue : ℚ
  buyWindowSize : ℤ
  sellWindowSize : ℤ
  reconcileInterval : ℤ
  orderCleanupThreshold : ℤ
  cleanupBatchSize : ℤ
  marginLockDurationSec : ℤ
  positionSafetyCheck : ℤ
  maxLeverage : ℤ
  takeProfit : TakeProfitConfig
  deriving Repr, DecidableEq

/-- `system` section. -/
structure SystemConfig where
  logLevel : String
  cancelOnExit : Bool
  deriving Repr, DecidableEq

/-- `risk_control` section. -/
structure RiskControlConfig where
  enabled : Bool
  monitorSymbols : List String
  interval : String
  volumeMultiplier : ℚ
  averageWindow : ℤ
  recoveryThreshold : ℤ
  deriving Repr, DecidableEq

/-- `timing` section. -/
structure TimingConfig where
  websocketReconnectDelay : ℤ
  websocketWriteWait : ℤ
  websocketPongWait : ℤ
  websocketPingInterval : ℤ
  listenKeyKeepAliveInterval : ℤ
  priceSendInterval : ℤ
  rateLimitRetryDelay : ℤ
  orderRetryDelay : ℤ
  pricePollInterval : ℤ
  statusPrintInterval : ℤ
  orderCleanupInterval : ℤ
  deriving Repr, DecidableEq

/-- `exchanges.<name>` entry. -/
structure ExchangeConfig where
  apiKey : String
  secretKey : String
  passphrase : String
  feeRate : ℚ
  deriving Repr, DecidableEq

/-- The full configuration; the Go `map[string]ExchangeConfig` is modelled as
an association list. -/
structure Config where
  app : AppConfig
  exchanges : List (String × ExchangeConfig)
  trading : TradingConfig
  system : SystemConfig
  riskControl : RiskControlConfig
  timing : TimingConfig
  deriving Repr, DecidableEq

/-- The error returns of `Config.Validate`, one tag per `fmt.Errorf` site. -/
inductive ConfigError where
  | noCurrentExchange
  | noExchanges
  | unknownExchange
  | incompleteAPIConfig
  | negativeFeeRate
  | emptySymbol
  | nonPositiveOrderQuantity
  | nonPositiveBuyWindow
  | takeProfitTargetNotPositive
  | takeProfitIntervalOutOfRange
  | takeProfitBalanceModeInvalid
  deriving Repr, DecidableEq

/-- The defaulting assignments `Validate` applies to the `trading` section
(lines 142-155 of config.go). -/
def defaultedTrading (t : TradingConfig) : TradingConfig :=
  { t with
    sellWindowSize :=
      if t.sellWindowSize ≤ 0 then t.buyWindowSize else t.sellWindowSize,
    cleanupBatchSize :=
      if t.cleanupBatchSize ≤ 0 then 10 else t.cleanupBatchSize,
    minOrderValue := if t.minOrderValue ≤ 0 then 20 else t.minOrderValue,
    maxLeverage := if t.maxLeverage ≤ 0 then 10 else t.maxLeverage }

/-- The defaulting assignments `Validate` applies to the `timing` section. -/
def defaultedTiming (t : TimingConfig) : TimingConfig :=
  { t with
    websocketReconnectDelay :=
      if t.websocketReconnectDelay ≤ 0 then 5 else t.websocketReconnectDelay,
    websocketWriteWait :=
      if t.websocketWriteWait ≤ 0 then 10 else t.websocketWriteWait,
    websocketPongWait :=
      if t.websocketPongWait ≤ 0 then 60 else t.websocketPongWait,
    websocketPingInterval :=
      if t.websocketPingInterval ≤ 0 then 20 else t.websocketPingInterval,
    listenKeyKeepAliveInterval :=
      if t.listenKeyKeepAliveInterval ≤ 0 then 30
      else t.listenKeyKeepAliveInterval,
    priceSendInterval :=
      if t.priceSendInterval ≤ 0 then 50 else t.priceSendInterval,
    rateLimitRetryDelay :=
      if t.rateLimitRetryDelay ≤ 0 then 1 else t.rateLimitRetryDelay,
    orderRetryDelay :=
      if t.orderRetryDelay ≤ 0 then 500 else t.orderRetryDelay,
    pricePollInterval :=
      if t.pricePollInterval ≤ 0 then 500 else t.pricePollInterval,
    statusPrintInterval :=
      if t.statusPrintInterval ≤ 0 then 1 else t.statusPrintInterval,
    orderCleanupInterval :=
      if t.orderCleanupInterval ≤ 0 then 60 else t.orderCleanupInterval }

/-- The defaulting and clamping `Validate` applies to the `risk_control`
section (config.go lines 193-214).  The `monitor_symbols` list is defaulted
first; `monitorCount` is its length after defaulting; the threshold chain is
the source's `if <= 0 / else if < 1 / else if > monitorCount` ladder. -/
def defaultedMonitorSymbols (rc : RiskControlConfig) : List String :=
  if rc.monitorSymbols.isEmpty then
    ["BTCUSDT", "ETHUSDT", "SOLUSDT", "XRPUSDT", "DOGEUSDT"]
  else rc.monitorSymbols

/-- The clamping ladder for `recovery_threshold`, against the monitor-symbol
count after defaulting (`monitorCount` in the source). -/
def clampedRecoveryThreshold (rc : RiskControlConfig) : ℤ :=
  let monitorCount : ℤ := (defaultedMonitorSymbols rc).length
  if rc.recoveryThreshold ≤ 0 then 3
  else if rc.recoveryThreshold < 1 then 1
  else if rc.recoveryThreshold > monitorCount then monitorCount
  else rc.recoveryThreshold

def defaultedRiskControl (rc : RiskControlConfig) : RiskControlConfig :=
  { rc with
    interval := if rc.interval = "" then "1m" else rc.interval,
    volumeMultiplier :=
      if rc.volumeMultiplier ≤ 0 then 3 else rc.volumeMultiplier,
    averageWindow := if rc.averageWindow ≤ 0 then 20 else rc.averageWindow,
    monitorSymbols := defaultedMonitorSymbols rc,
    recoveryThreshold := clampedRecoveryThreshold rc }

/-- The configuration after all of `Validate`'s defaulting assignments. -/
def appliedDefaults (c : Config) : Config :=
  { c with
    trading := defaultedTrading c.trading,
    timing := defaultedTiming c.timing,
    riskControl := defaultedRiskControl c.riskControl }

/-- Everything `Config.Validate` does before the take-profit block: the
required-field and range errors (config.go lines 110-141) followed by the
defaulting assignments. -/
def validateBase (c : Config) : Except ConfigError Config :=
  if c.app.currentExchange = "" then .error .noCurrentExchange
  else if c.exchanges.isEmpty then .error .noExchanges
  else
    match c.exchanges.lookup c.app.currentExchange with
    | none => .error .unknownExchange
    | some exchangeCfg =>
      if exchangeCfg.apiKey = "" ∨ exchangeCfg.secretKey = "" then
        .error .incompleteAPIConfig
      else if exchangeCfg.feeRate < 0 then .error .negativeFeeRate
      else if c.trading.symbol = "" then .error .emptySymbol
      else if c.trading.orderQuantity ≤ 0 then .error .nonPositiveOrderQuantity
      else if c.trading.buyWindowSize ≤ 0 then .error .nonPositiveBuyWindow
      else .ok (appliedDefaults c)

/-- The take-profit block of `Config.Validate` (config.go lines 217-235).
The two trailing default assignments are unreachable (the range and mode
checks already exclude `checkInterval ≤ 0` and an empty mode) but are kept
as in the source. -/
def validateTakeProfit (c : Config) : Except ConfigError Config :=
  if c.trading.takeProfit.enabled then
    if c.trading.takeProfit.targetProfit ≤ 0 then
      .error .takeProfitTargetNotPositive
    else if c.trading.takeProfit.checkInterval < 10 ∨
        c.trading.takeProfit.checkInterval > 300 then
      .error .takeProfitIntervalOutOfRange
    else if c.trading.takeProfit.balanceMode ≠ "auto" ∧
        c.trading.takeProfit.balanceMode ≠ "precise" then
      .error .takeProfitBalanceModeInvalid
    else
      .ok { c with trading := { c.trading with takeProfit :=
        { c.trading.takeProfit with
          checkInterval :=
            if c.trading.takeProfit.checkInterval ≤ 0 then 30
            else c.trading.takeProfit.checkInterval,
          balanceMode :=
            if c.trading.takeProfit.balanceMode = "" then "auto"
            else c.trading.takeProfit.balanceMode } } }
  else .ok c

/-- `Config.Validate` (config.go line 108): the pre-take-profit checks and
defaulting, then the take-profit block. -/
def Config.Validate (c : Config) : Except ConfigError Config :=
  (validateBase c).bind validateTakeProfit

/-- The `risk_control` section of a configuration accepted by
`Config.Validate`; `none` when validation rejects it. -/
def validatedRiskControl (c : Config) : Option RiskControlConfig :=
  (Config.Validate c).toOption.map (fun c' => c'.riskControl)

/-- A successful `validateBase` returns exactly the defaulted configuration. -/
lemma validateBase_ok {c c' : Config} (h : validateBase c = .ok c') :
    c' = appliedDefaults c := by
  simp only [validateBase] at h
  repeat' split at h
  all_goals simp_all

/-- The take-profit block never changes the `risk_control` section. -/
lemma validateTakeProfit_riskControl {c c' : Config}
    (h : validateTakeProfit c = .ok c') : c'.riskControl = c.riskControl := by
  simp only [validateTakeProfit] at h
  repeat' split at h
  all_goals injection h
  all_goals (rename_i h2; subst h2; rfl)

/-- The defaulted monitor-symbol list is never empty. -/
lemma defaultedMonitorSymbols_length_pos (rc0 : RiskControlConfig) :
    1 ≤ ((defaultedMonitorSymbols rc0).length : ℤ) := by
  simp only [defaultedMonitorSymbols]
  split
  · simp
  · rename_i hne
    have h0 : rc0.monitorSymbols ≠ [] := by
      simpa [List.isEmpty_iff] using hne
    have h1 : 0 < rc0.monitorSymbols.length := List.length_pos.mpr h0
    omega

/-- Recovery-threshold facts about the defaulting/clamping ladder. -/
lemma defaultedRiskControl_threshold (rc0 : RiskControlConfig) :
    1 ≤ (defaultedRiskControl rc0).recoveryThreshold ∧
    (1 ≤ rc0.recoveryThreshold →
      (defaultedRiskControl rc0).recoveryThreshold ≤
        ((defaultedRiskControl rc0).monitorSymbols.length : ℤ)) ∧
    (rc0.recoveryThreshold ≤ 0 →
      (defaultedRiskControl rc0).recoveryThreshold = 3) := by
  have hms : (defaultedRiskControl rc0).monitorSymbols =
      defaultedMonitorSymbols rc0 := rfl
  have hrt : (defaultedRiskControl rc0).recoveryThreshold =
      clampedRecoveryThreshold rc0 := rfl
  have hlen := defaultedMonitorSymbols_length_pos rc0
  rw [hms, hrt]
  simp only [clampedRecoveryThreshold]
  split_ifs with h1 h2 h3 <;> refine ⟨?_, ?_, ?_⟩ <;> intros <;> omega

/-- A configuration that passes every pre-take-profit check: one configured
exchange with non-empty credentials and zero fee, a symbol, positive order
notional and buy window, take-profit disabled. -/
def passingBaseConfig : Config :=
  { app := ⟨"binance"⟩,
    exchanges := [("binance", ⟨"key", "secret", "", 0⟩)],
    trading := ⟨"BTCUSDT", 1, 30, 0, 3, 0, 0, 0, 0, 0, 0, 0, ⟨false, 0, 0, ""⟩⟩,
    system := ⟨"info", true⟩,
    riskControl := ⟨true, [], "", 0, 0, 0⟩,
    timing := ⟨0, 0, 0, 0, 0, 0, 0, 0, 0, 0, 0⟩ }

/-- The C4 counterexample input: one monitored symbol, threshold unset. -/
def c4Config : Config :=
  { passingBaseConfig with riskControl := ⟨true, ["BTCUSDT"], "", 0, 0, 0⟩ }

/-- The `risk_control` section `Config.Validate` produces for `c4Config`. -/
def c4OutRiskControl : RiskControlConfig := ⟨true, ["BTCUSDT"], "1m", 3, 20, 3⟩

/-- C4 (counterexample).  With a single explicitly monitored symbol and an
unset (`0`) recovery threshold, validation succeeds and sets the threshold to
the default 3, which exceeds `|monitor_symbols| = 1`: the first branch of the
`if <= 0 / else if > monitorCount` ladder bypasses the upper clamp. -/
theorem C4_counterexample :
    validatedRiskControl c4Config = some c4OutRiskControl ∧
    ¬(c4OutRiskControl.recoveryThreshold ≤
      (c4OutRiskControl.monitorSymbols.length : ℤ)) := by
  decide

/-- C4 (amended).  For every configuration accepted by `Config.Validate`, the
resulting recovery threshold is ≥ 1; it is ≤ `|monitor_symbols|` whenever the
input threshold was ≥ 1; and an unset (≤ 0) threshold becomes exactly the
default 3, which may exceed `|monitor_symbols|` when fewer than 3 symbols are
monitored. -/
theorem C4_recovery_threshold (c : Config) (rc : RiskControlConfig)
    (h : validatedRiskControl c = some rc) :
    1 ≤ rc.recoveryThreshold ∧
    (1 ≤ c.riskControl.recoveryThreshold →
      rc.recoveryThreshold ≤ (rc.monitorSymbols.length : ℤ)) ∧
    (c.riskControl.recoveryThreshold ≤ 0 → rc.recoveryThreshold = 3) := by
  have hrc : rc = defaultedRiskControl c.riskControl := by
    unfold validatedRiskControl at h
    cases hv : Config.Validate c with
    | error e => rw [hv] at h; simp [Except.toOption] at h
    | ok cOut =>
      rw [hv] at h
      simp only [Except.toOption, Option.map_some] at h
      obtain rfl : cOut.riskControl = rc := by simpa using h
      unfold Config.Validate at hv
      cases hb : validateBase c with
      | error e => rw [hb] at hv; simp [Except.bind] at hv
      | ok c₁ =>
        rw [hb] at hv
        simp only [Except.bind] at hv
        rw [validateTakeProfit_riskControl hv, validateBase_ok hb]
        rfl
  rw [hrc]
  exact defaultedRiskControl_threshold c.riskControl

/-- C4 (witness): the amended theorem applied to the counterexample input. -/
theorem C4_witness :
    1 ≤ c4OutRiskControl.recoveryThreshold ∧
    (1 ≤ c4Config.riskControl.recoveryThreshold →
      c4OutRiskControl.recoveryThreshold ≤
        (c4OutRiskControl.monitorSymbols.length : ℤ)) ∧
    (c4Config.riskControl.recoveryThreshold ≤ 0 →
      c4OutRiskControl.recoveryThreshold = 3) :=
  C4_recovery_threshold c4Config c4OutRiskControl (by decide)

/-- C7.  For every configuration that passes the pre-take-profit checks and
has take-profit enabled, `Config.Validate` returns an error iff the target
profit is ≤ 0, or the check interval lies outside `[10, 300]` (so an unset
zero interval is rejected), or the balance mode is neither `"auto"` nor
`"precise"` (so an unset empty mode is rejected); otherwise validation
succeeds. -/
theorem C7_take_profit_validation (c : Config)
    (hbase : (validateBase c).isOk = true)
    (hen : c.trading.takeProfit.enabled = true) :
    ((Config.Validate c).isOk = false ↔
      (c.trading.takeProfit.targetProfit ≤ 0 ∨
       c.trading.takeProfit.checkInterval < 10 ∨
       c.trading.takeProfit.checkInterval > 300 ∨
       (c.trading.takeProfit.balanceMode ≠ "auto" ∧
        c.trading.takeProfit.balanceMode ≠ "precise"))) := by
  obtain ⟨c₁, h₁⟩ : ∃ c₁, validateBase c = .ok c₁ := by
    cases hv : validateBase c with
    | ok x => exact ⟨x, rfl⟩
    | error e => rw [hv] at hbase; exact absurd hbase (by simp [Except.isOk, Except.toBool])
  have htp : c₁.trading.takeProfit = c.trading.takeProfit := by
    rw [validateBase_ok h₁]; rfl
  have hval : Config.Validate c = validateTakeProfit c₁ := by
    simp [Config.Validate, h₁, Except.bind]
  rw [hval]
  simp only [validateTakeProfit, htp, hen, if_true]
  split_ifs with h1 h2 h3 h4 h5
  · exact iff_of_true rfl (by tauto)
  · exact iff_of_true rfl (by tauto)
  · exact iff_of_true rfl (by tauto)
  all_goals
    exact iff_of_false (by simp [Except.isOk, Except.toBool]) (by tauto)

/-- The C7 witness input: `passingBaseConfig` with take-profit enabled,
target 5, interval 30 s, mode `auto` — a valid take-profit section. -/
def c7Config : Config :=
  { passingBaseConfig with trading :=
    { passingBaseConfig.trading with takeProfit := ⟨true, 5, 30, "auto"⟩ } }

/-- C7 (witness): the theorem applied to `c7Config`; no error is reported
since none of the three rejection conditions holds there. -/
theorem C7_witness :
    ((Config.Validate c7Config).isOk = false ↔
      (c7Config.trading.takeProfit.targetProfit ≤ 0 ∨
       c7Config.trading.takeProfit.checkInterval < 10 ∨
       c7Config.trading.takeProfit.checkInterval > 300 ∨
       (c7Config.trading.takeProfit.balanceMode ≠ "auto" ∧
        c7Config.trading.takeProfit.balanceMode ≠ "precise"))) :=
  C7_take_profit_validation c7Config (by decide) rfl

/-! ## Logger (`logger/logger.go`) -/

/-- The five log levels, ordered as in the source. -/
inductive LogLevel where
  | DEBUG
  | INFO
  | WARN
  | ERROR
  | FATAL
  deriving Repr, DecidableEq

/-- Go `strings.ToUpper` as used by `ParseLogLevel` (character-wise upper
casing; the comparisons are against ASCII keywords). -/
def stringsToUpper (s : String) : String := ⟨s.data.map Char.toUpper⟩

/-- Go `strings.TrimSpace` as used by `ParseLogLevel`: drop leading and
trailing whitespace. -/
def stringsTrimSpace (s : String) : String :=
  ⟨((s.data.dropWhile Char.isWhitespace).reverse.dropWhile
      Char.isWhitespace).reverse⟩

/-- `ParseLogLevel` (logger.go line 293): trim, upper-case, then match the
six keywords; everything else falls through to `INFO`.  Total by
construction. -/
def ParseLogLevel (level : String) : LogLevel :=
  let l := stringsToUpper (stringsTrimSpace level)
  if l = "DEBUG" then .DEBUG
  else if l = "INFO" then .INFO
  else if l = "WARN" ∨ l = "WARNING" then .WARN
  else if l = "ERROR" then .ERROR
  else if l = "FATAL" then .FATAL
  else .INFO

/-- C10.  `ParseLogLevel` is a total function, and every input whose trimmed,
upper-cased form matches none of the six keywords parses to `INFO`. -/
theorem C10_parse_log_level_default (s : String)
    (h : stringsToUpper (stringsTrimSpace s) ∉
      (["DEBUG", "INFO", "WARN", "WARNING", "ERROR", "FATAL"] : List String)) :
    ParseLogLevel s = LogLevel.INFO := by
  simp only [List.mem_cons, List.not_mem_nil, or_false, not_or] at h
  obtain ⟨h1, h2, h3, h4, h5, h6⟩ := h
  simp [ParseLogLevel, h1, h2, h3, h4, h5, h6]

/-- C10 (witness): an unrecognized level string parses to `INFO`. -/
theorem C10_witness : ParseLogLevel " verbose " = LogLevel.INFO :=
  C10_parse_log_level_default " verbose " (by decide)

/-! ## Take-profit monitor (`safety`, `TakeProfitMonitor`) -/

/-- The mutable fields of `TakeProfitMonitor`: the two stored balances, the
`triggered` flag, and the `isBalanceSet` flag. -/
structure TPState where
  initialBalance : ℚ
  lastBalance : ℚ
  triggered : Bool
  isBalanceSet : Bool
  deriving Repr, DecidableEq

/-- `TakeProfitMonitor.getEffectiveBalance`: total margin balance if
positive, else total wallet balance if positive, else available balance. -/
def getEffectiveBalance (account : Account) : ℚ :=
  if account.totalMarginBalance > 0 then account.totalMarginBalance
  else if account.totalWalletBalance > 0 then account.totalWalletBalance
  else account.availableBalance

/-- `TakeProfitMonitor.checkProfitAndTrigger`: returns the updated monitor
state and whether the take-profit fired.  A set `triggered` flag or a failed
account fetch (`none`) returns `false` without touching the stored balances;
otherwise `lastBalance` is updated and the trigger fires iff
`current − initial ≥ targetProfit`. -/
def checkProfitAndTrigger (targetProfit : ℚ) (s : TPState)
    (fetch : Option Account) : TPState × Bool :=
  if s.triggered then (s, false)
  else
    match fetch with
    | none => (s, false)
    | some account =>
      let currentBalance := getEffectiveBalance account
      let s1 := { s with lastBalance := currentBalance }
      if currentBalance - s.initialBalance ≥ targetProfit then
        ({ s1 with triggered := true }, true)
      else (s1, false)

/-- The tick loop of `TakeProfitMonitor.Start`: each tick carries the account
fetch outcome; ticks before `isBalanceSet` are skipped (`continue`); when a
check fires the callback runs once and the loop returns.  The result counts
the callback invocations. -/
def startLoop (targetProfit : ℚ) (s : TPState) :
    List (Option Account) → TPState × ℕ
  | [] => (s, 0)
  | fetch :: rest =>
    if s.isBalanceSet then
      let step := checkProfitAndTrigger targetProfit s fetch
      if step.2 then (step.1, 1)
      else startLoop targetProfit step.1 rest
    else startLoop targetProfit s rest

/-- C5.  The take-profit fires on a tick iff the monitor is not already
triggered, the account fetch succeeded, and the effective balance gained at
least `targetProfit` over the recorded initial balance; in particular a
failed fetch (`fetch = none`) never fires. -/
theorem C5_trigger_iff (targetProfit : ℚ) (s : TPState)
    (fetch : Option Account) :
    (checkProfitAndTrigger targetProfit s fetch).2 = true ↔
      (s.triggered = false ∧ ∃ account, fetch = some account ∧
        targetProfit ≤ getEffectiveBalance account - s.initialBalance) := by
  unfold checkProfitAndTrigger
  by_cases h1 : s.triggered
  · simp [h1]
  · rcases fetch with _ | account
    · simp [h1]
    · by_cases h2 :
        getEffectiveBalance account - s.initialBalance ≥ targetProfit
      · simp [h1, h2]
      · simp [h1, h2]

/-- C8.  The effective balance used by the take-profit monitor is the margin
balance when positive; otherwise the wallet balance when positive; otherwise
the available balance.  (The source applies this rule regardless of the
configured `balance_mode`, so in particular when it is `"auto"`.) -/
theorem C8_effective_balance (account : Account) :
    (0 < account.totalMarginBalance →
      getEffectiveBalance account = account.totalMarginBalance) ∧
    (account.totalMarginBalance ≤ 0 → 0 < account.totalWalletBalance →
      getEffectiveBalance account = account.totalWalletBalance) ∧
    (account.totalMarginBalance ≤ 0 → account.totalWalletBalance ≤ 0 →
      getEffectiveBalance account = account.availableBalance) := by
  unfold getEffectiveBalance
  refine ⟨fun h => ?_, fun h1 h2 => ?_, fun h1 h2 => ?_⟩
  · rw [if_pos h]
  · rw [if_neg (not_lt.mpr h1), if_pos h2]
  · rw [if_neg (not_lt.mpr h1), if_neg (not_lt.mpr h2)]

/-- C8 (witness): the three cases of the theorem at concrete accounts. -/
theorem C8_witness :
    getEffectiveBalance ⟨2, 5, 7, 0⟩ = 7 ∧
    getEffectiveBalance ⟨2, 5, 0, 0⟩ = 5 ∧
    getEffectiveBalance ⟨2, 0, 0, 0⟩ = 2 :=
  ⟨(C8_effective_balance ⟨2, 5, 7, 0⟩).1 (by decide),
   (C8_effective_balance ⟨2, 5, 0, 0⟩).2.1 (by decide) (by decide),
   (C8_effective_balance ⟨2, 0, 0, 0⟩).2.2 (by decide) (by decide)⟩

/-- Once triggered, a check leaves the state unchanged and reports `false`. -/
lemma checkProfitAndTrigger_triggered (targetProfit : ℚ) (s : TPState)
    (fetch : Option Account) (h : s.triggered = true) :
    checkProfitAndTrigger targetProfit s fetch = (s, false) := by
  unfold checkProfitAndTrigger
  rw [if_pos h]

/-- C9.  The triggered flag latches: once set, every later
`checkProfitAndTrigger` call returns `false` and keeps the flag set; and over
any sequence of ticks the `Start` loop invokes the exit callback at most
once (it returns right after the first invocation). -/
theorem C9_at_most_once :
    (∀ (targetProfit : ℚ) (s : TPState) (fetch : Option Account),
      s.triggered = true →
        (checkProfitAndTrigger targetProfit s fetch).2 = false ∧
        (checkProfitAndTrigger targetProfit s fetch).1.triggered = true) ∧
    (∀ (targetProfit : ℚ) (s : TPState) (ticks : List (Option Account)),
      (startLoop targetProfit s ticks).2 ≤ 1) := by
  constructor
  · intro targetProfit s fetch h
    rw [checkProfitAndTrigger_triggered targetProfit s fetch h]
    exact ⟨rfl, h⟩
  · intro targetProfit s ticks
    induction ticks generalizing s with
    | nil => simp [startLoop]
    | cons fetch rest ih =>
      simp only [startLoop]
      split_ifs with h1 h2
      · exact le_refl 1
      · exact ih _
      · exact ih _

/-- A C9 witness state with the trigger already latched. -/
def triggeredState : TPState := ⟨100, 100, true, true⟩

/-- C9 (witness): the theorem applied at a latched state and a two-tick
run. -/
theorem C9_witness :
    ((checkProfitAndTrigger 5 triggeredState none).2 = false ∧
     (checkProfitAndTrigger 5 triggeredState none).1.triggered = true) ∧
    (startLoop 5 triggeredState [none, none]).2 ≤ 1 :=
  ⟨C9_at_most_once.1 5 triggeredState none rfl,
   C9_at_most_once.2 5 triggeredState [none, none]⟩

/-! ## Main price-event loop (`main.go` lines 299-329) -/

/-- The venue calls the loop body can make on one price event. -/
structure EventActions where
  cancelAllBuyOrders : Bool
  adjustOrders : Bool
  deriving Repr, DecidableEq

/-- One iteration of the price-event loop: given the remembered
`lastTriggered` flag and the current `riskMonitor.IsTriggered()` reading,
produce the updated flag and the calls made.  Triggered and already
`lastTriggered`: `continue` with no calls.  Triggered rising edge: cancel all
buy orders, remember `true`.  Untriggered: remember `false` and call
`AdjustOrders`. -/
def priceEventStep (lastTriggered isTriggered : Bool) : Bool × EventActions :=
  if isTriggered then
    if !lastTriggered then (true, ⟨true, false⟩)
    else (lastTriggered, ⟨false, false⟩)
  else (false, ⟨false, true⟩)

/-- The price-event loop over a trace of `IsTriggered()` readings, starting
from a given `lastTriggered` flag, collecting the calls made per event. -/
def mainPriceLoop (lastTriggered : Bool) : List Bool → List EventActions
  | [] => []
  | t :: rest =>
    let step := priceEventStep lastTriggered t
    step.2 :: mainPriceLoop step.1 rest

/-- Closed form of one loop step: the remembered flag becomes the current
reading; buys are cancelled exactly on a rising edge; orders are adjusted
exactly on untriggered events. -/
lemma priceEventStep_eq (lastTriggered isTriggered : Bool) :
    priceEventStep lastTriggered isTriggered =
      (isTriggered, ⟨isTriggered && !lastTriggered, !isTriggered⟩) := by
  cases lastTriggered <;> cases isTriggered <;> rfl

/-- Closed form of the whole loop from an arbitrary starting flag. -/
lemma mainPriceLoop_eq (lastTriggered : Bool) (trigs : List Bool) :
    mainPriceLoop lastTriggered trigs =
      trigs.zipWith (fun t prev => ⟨t && !prev, !t⟩)
        (lastTriggered :: trigs) := by
  induction trigs generalizing lastTriggered with
  | nil => rfl
  | cons t rest ih =>
    simp only [mainPriceLoop, priceEventStep_eq, List.zipWith]
    rw [ih t]

/-- C6.  Over every trace of `IsTriggered()` readings (the loop starts with
`lastTriggered = false`), the i-th event's actions are: `AdjustOrders` called
iff the reading is `false`, and `CancelAllBuyOrders` called iff the reading
is `true` while the previous reading (or the initial state, for the first
event) was `false` — i.e. exactly once per rising edge, never while the
trigger stays held, and on every untriggered event the orders are
adjusted. -/
theorem C6_risk_pause_loop (trigs : List Bool) :
    mainPriceLoop false trigs =
      trigs.zipWith (fun t prev => ⟨t && !prev, !t⟩) (false :: trigs) :=
  mainPriceLoop_eq false trigs

end OpenSQT
